import Mathlib

/-!
Verification of the request-admission and usage-governance subsystem of
`plant-intel` (`backend/app/middleware/rate_limiting.py` and
`backend/app/services/usage_tracking.py`), shallowly embedded in Lean 4.

Timestamps of the in-memory sliding-window limiter (Python `time.time()`
floats) are modelled as integers; only their ordering matters to the code.
The per-client request store (`self.requests`, a `defaultdict(list)`)
is modelled as an association list with `defaultdict` lookup semantics.
-/

namespace RateLimiting

/-- The in-memory store `self.requests : Dict[str, list]`
(a `defaultdict(list)` mapping client id to a list of timestamps). -/
abbrev Store := List (String × List ℤ)

/-- `defaultdict` read: the list held for `key`, or `[]` when absent. -/
def lookupList (s : Store) (key : String) : List ℤ :=
  match s.find? (fun kv => kv.1 == key) with
  | some kv => kv.2
  | none => []

/-- Whether `key` is present in the store (`key in self.requests`). -/
def hasKey (s : Store) (key : String) : Bool :=
  s.any (fun kv => kv.1 == key)

/-- `self.requests[key] = v`: overwrite the entry when present, insert
it at the end otherwise (Python dicts keep insertion order). -/
def setKey (s : Store) (key : String) (v : List ℤ) : Store :=
  if hasKey s key then
    s.map (fun kv => if kv.1 == key then (key, v) else kv)
  else
    s ++ [(key, v)]

/-- The window-membership test of `_check_rate_limit` and
`_cleanup_old_requests`: `ts > cutoff_time` with
`cutoff_time = now - window_size` (strict comparison). -/
def inWindow (windowSize now ts : ℤ) : Bool :=
  now - windowSize < ts

/-- The in-window request count of a key at time `now`: length of the
key's stored timestamps that pass the window filter.  This is the
spec's `count(key, now)` observer (read-only, no mutation). -/
def windowCount (windowSize : ℤ) (s : Store) (key : String) (now : ℤ) : ℕ :=
  ((lookupList s key).filter (inWindow windowSize now)).length

/-- `_check_rate_limit(client_id)` at time `now` (the code reads
`time.time()`; we pass `now` explicitly).  Returns
`(is_allowed, current_count, limit)` together with the updated store:
filter the key's timestamps to the window, store the filtered list
back, deny when the filtered count reaches `requests_per_minute`,
append `now` when allowed. -/
def checkRateLimit (requestsPerMinute : ℕ) (windowSize : ℤ)
    (s : Store) (clientId : String) (now : ℤ) :
    (Bool × ℕ × ℕ) × Store :=
  let recentRequests := (lookupList s clientId).filter (inWindow windowSize now)
  let s1 := setKey s clientId recentRequests
  let currentCount := recentRequests.length
  let isAllowed : Bool := decide (currentCount < requestsPerMinute)
  let s2 := if isAllowed then setKey s1 clientId (recentRequests ++ [now]) else s1
  ((isAllowed, currentCount + (if isAllowed then 1 else 0), requestsPerMinute), s2)

/-- The body of `_cleanup_old_requests` once the cleanup interval has
elapsed: filter every key's list to the window and drop keys whose
list became empty. -/
def cleanupPass (windowSize : ℤ) (now : ℤ) (s : Store) : Store :=
  (s.map (fun kv => (kv.1, kv.2.filter (inWindow windowSize now)))).filter
    (fun kv => !kv.2.isEmpty)

/-- Characters of the first comma-separated token:
`forwarded_for.split(",")[0]`. -/
def takeUntilComma : List Char → List Char
  | [] => []
  | c :: cs => if c = ',' then [] else c :: takeUntilComma cs

/-- Python `str.strip()` whitespace set. -/
def isPySpace (c : Char) : Bool :=
  c = ' ' || c = '\t' || c = '\n' || c = '\x0b' || c = '\x0c' || c = '\r'

/-- Python `str.strip()`: drop leading and trailing whitespace. -/
def pyStrip (l : List Char) : List Char :=
  ((l.dropWhile isPySpace).reverse.dropWhile isPySpace).reverse

/-- `forwarded_for.split(",")[0].strip()`. -/
def firstForwardedToken (h : String) : String :=
  String.mk (pyStrip (takeUntilComma h.data))

/-- A request as seen by `_get_client_id`: `user` is
`request.state.user` when the attribute exists, holding the value of
`user.get("user_id")`; `clientHost` is `request.client.host` when
`request.client` is set; `forwardedFor` is the `X-Forwarded-For`
header when present. -/
structure Request where
  user : Option (Option String)
  clientHost : Option String
  forwardedFor : Option String

/-- `_get_client_id(request)`: an authenticated user yields
`user:<user_id or "unknown">`; otherwise the `X-Forwarded-For` header
(when present and non-empty — Python truthiness) supplies the first
comma-separated token, trimmed; otherwise the transport address or
`"unknown"`. -/
def getClientId (r : Request) : String :=
  match r.user with
  | some userId => "user:" ++ userId.getD "unknown"
  | none =>
    let clientIp := r.clientHost.getD "unknown"
    let clientIp :=
      match r.forwardedFor with
      | some h => if h.isEmpty then clientIp else firstForwardedToken h
      | none => clientIp
    "ip:" ++ clientIp

/-! ### Store lemmas -/

theorem lookupList_setKey_self (s : Store) (key : String) (v : List ℤ) :
    lookupList (setKey s key v) key = v := by
  unfold setKey hasKey
  split
  · rename_i hany
    unfold lookupList
    induction s with
    | nil => simp at hany
    | cons kv rest ih =>
      simp only [List.map_cons, List.find?_cons]
      by_cases hk : kv.1 == key
      · simp [hk]
      · simp only [hk, Bool.false_eq_true, if_false]
        simp only [List.any_cons, hk, Bool.false_or] at hany
        have := ih hany
        simpa [hk] using this
  · rename_i hany
    unfold lookupList
    induction s with
    | nil => simp
    | cons kv rest ih =>
      simp only [List.any_cons, Bool.or_eq_true, not_or] at hany
      simp only [List.cons_append, List.find?_cons]
      have hk : (kv.1 == key) = false := by
        cases hkv : kv.1 == key
        · rfl
        · exact absurd hkv hany.1
      simp only [hk]
      exact ih hany.2

theorem filter_filter_self (p : ℤ → Bool) (l : List ℤ) :
    (l.filter p).filter p = l.filter p := by
  induction l with
  | nil => rfl
  | cons a t ih =>
    by_cases h : p a
    · simp [List.filter_cons, h, ih]
    · simp [List.filter_cons, h, ih]

theorem lookupList_setKey_setKey (s : Store) (key : String) (v w : List ℤ) :
    lookupList (setKey (setKey s key v) key w) key = w :=
  lookupList_setKey_self _ _ _

/-- C1: `_check_rate_limit` denies exactly when the pre-insertion in-window
count already reaches `requests_per_minute`; when it allows it appends `now`
to the key's (window-filtered) timestamps and reports the pre-insertion
count plus one; when it denies it reports the pre-insertion count; in both
cases it reports the configured limit. -/
theorem checkRateLimit_admission (limit : ℕ) (window : ℤ) (s : Store)
    (key : String) (now : ℤ) :
    ((checkRateLimit limit window s key now).1.1 = false
      ↔ limit ≤ windowCount window s key now)
    ∧ (checkRateLimit limit window s key now).1.2.1
        = windowCount window s key now
          + (if (checkRateLimit limit window s key now).1.1 then 1 else 0)
    ∧ (checkRateLimit limit window s key now).1.2.2 = limit
    ∧ lookupList (checkRateLimit limit window s key now).2 key
        = (if (checkRateLimit limit window s key now).1.1
           then ((lookupList s key).filter (inWindow window now)) ++ [now]
           else (lookupList s key).filter (inWindow window now)) := by
  unfold checkRateLimit windowCount
  by_cases h : ((lookupList s key).filter (inWindow window now)).length < limit
  · refine ⟨by simp [h, Nat.not_lt], by simp [h], rfl, ?_⟩
    simp only [decide_eq_true_eq, if_pos h]
    exact lookupList_setKey_setKey s key _ _
  · refine ⟨by simp [h]; omega, by simp [h], rfl, ?_⟩
    simp only [decide_eq_true_eq, if_neg h]
    exact lookupList_setKey_self s key _

/-- C2: a denied `_check_rate_limit` call records no timestamp for the
rejected request — the key's stored list afterwards is exactly the window
filter of the old list, with nothing appended — and the in-window count
`count(key, now)` is unchanged by the denial. -/
theorem checkRateLimit_denied_frame (limit : ℕ) (window : ℤ) (s : Store)
    (key : String) (now : ℤ)
    (h : limit ≤ windowCount window s key now) :
    (checkRateLimit limit window s key now).1.1 = false
    ∧ lookupList (checkRateLimit limit window s key now).2 key
        = (lookupList s key).filter (inWindow window now)
    ∧ windowCount window (checkRateLimit limit window s key now).2 key now
        = windowCount window s key now := by
  have hnot : ¬ ((lookupList s key).filter (inWindow window now)).length < limit := by
    simpa [windowCount, Nat.not_lt] using h
  unfold checkRateLimit
  simp only [decide_eq_true_eq, if_neg hnot]
  refine ⟨by simp [hnot], lookupList_setKey_self s key _, ?_⟩
  unfold windowCount
  rw [lookupList_setKey_self s key _, filter_filter_self]

theorem checkRateLimit_denied_frame_witness :
    (checkRateLimit 1 60 [("k", [90])] "k" 100).1.1 = false
    ∧ lookupList (checkRateLimit 1 60 [("k", [90])] "k" 100).2 "k"
        = (lookupList [("k", [90])] "k").filter (inWindow 60 100)
    ∧ windowCount 60 (checkRateLimit 1 60 [("k", [90])] "k" 100).2 "k" 100
        = windowCount 60 [("k", [90])] "k" 100 :=
  checkRateLimit_denied_frame 1 60 [("k", [90])] "k" 100 (by decide)

/-- C7 counterexample: the window filter used by `_check_rate_limit` is
strict (`ts > now - window_size`), so a timestamp exactly `window_size`
old — inside the claim's closed interval `[now - windowSeconds, now]` —
is dropped: with window 60, now 100, a recorded timestamp 40 satisfies
`100 - 60 ≤ 40 ≤ 100` yet the in-window count is 0, not 1. -/
theorem windowFilter_boundary_cex :
    windowCount 60 [("k", [40])] "k" 100 = 0
    ∧ (100 : ℤ) - 60 ≤ 40 ∧ (40 : ℤ) ≤ 100 := by
  decide

/-- C7 (amended): the window filter retains exactly the timestamps `t`
with `now - windowSeconds < t` (strict: a timestamp exactly
`windowSeconds` old is dropped, and no upper bound is applied);
consequently once every recorded timestamp of a key is more than
`windowSeconds` in the past, the key's window count is 0. -/
theorem windowFilter_strict (window now ts : ℤ) (s : Store) (key : String) :
    (ts ∈ (lookupList s key).filter (inWindow window now)
      ↔ ts ∈ lookupList s key ∧ now - window < ts)
    ∧ ((∀ t ∈ lookupList s key, window < now - t)
        → windowCount window s key now = 0) := by
  constructor
  · simp [List.mem_filter, inWindow]
  · intro hall
    unfold windowCount
    have : (lookupList s key).filter (inWindow window now) = [] := by
      rw [List.filter_eq_nil_iff]
      intro t ht
      have := hall t ht
      simp only [inWindow, decide_eq_true_eq, not_lt]
      omega
    rw [this]
    rfl

theorem windowFilter_strict_witness :
    windowCount 60 [("k", [40])] "k" 200 = 0 :=
  (windowFilter_strict 60 200 40 [("k", [40])] "k").2 (by decide)

/-- C8 counterexample: cleanup keeps only timestamps with
`ts > now - window_size`, so a timestamp exactly at `now - window_size`
— not older than the cutoff, and inside the spec's inclusive active
window — is removed (here the key is dropped entirely): window 60,
now 100, stored timestamp 40 = 100 - 60. -/
theorem cleanupPass_boundary_cex :
    cleanupPass 60 100 [("k", [40])] = []
    ∧ (100 : ℤ) - 60 ≤ 40 := by
  decide

/-- C8 (amended): a cleanup pass removes exactly the timestamps `ts` with
`ts ≤ now - window_size` — every timestamp with `now - window_size < ts`
survives in its key's entry — every surviving entry is the window filter
of the key's old list, and no key remains mapped to an empty list. -/
theorem cleanupPass_correct (window now : ℤ) (s : Store) :
    (∀ kv ∈ cleanupPass window now s, kv.2 ≠ [])
    ∧ (∀ kv ∈ cleanupPass window now s,
        ∃ l, (kv.1, l) ∈ s ∧ kv.2 = l.filter (inWindow window now))
    ∧ (∀ kv ∈ s, ∀ ts ∈ kv.2, now - window < ts
        → ∃ l, (kv.1, l) ∈ cleanupPass window now s ∧ ts ∈ l) := by
  refine ⟨?_, ?_, ?_⟩
  · intro kv hkv
    unfold cleanupPass at hkv
    rw [List.mem_filter] at hkv
    simpa [List.isEmpty_iff] using hkv.2
  · intro kv hkv
    unfold cleanupPass at hkv
    rw [List.mem_filter, List.mem_map] at hkv
    obtain ⟨⟨a, ha, hmap⟩, -⟩ := hkv
    exact ⟨a.2, by simpa [← hmap] using ha, by simp [← hmap]⟩
  · intro kv hkv ts hts hwin
    refine ⟨kv.2.filter (inWindow window now), ?_, ?_⟩
    · unfold cleanupPass
      rw [List.mem_filter]
      constructor
      · exact List.mem_map.mpr ⟨kv, hkv, rfl⟩
      · have hmem : ts ∈ kv.2.filter (inWindow window now) := by
          rw [List.mem_filter]
          exact ⟨hts, by simpa [inWindow] using hwin⟩
        cases hemp : (kv.2.filter (inWindow window now)).isEmpty with
        | false => rfl
        | true =>
          rw [List.isEmpty_iff] at hemp
          rw [hemp] at hmem
          exact absurd hmem (List.not_mem_nil ts)
    · rw [List.mem_filter]
      exact ⟨hts, by simpa [inWindow] using hwin⟩

theorem cleanupPass_correct_witness :
    ∃ l, ("k", l) ∈ cleanupPass 60 100 [("k", [40, 70])] ∧ (70 : ℤ) ∈ l :=
  (cleanupPass_correct 60 100 [("k", [40, 70])]).2.2
    ("k", [40, 70]) (by decide) 70 (by decide) (by decide)

/-- C6 counterexample: `_get_client_id` checks only the presence of the
user object, never that the user id is non-empty, and treats an empty
forwarding header as absent.  With a user whose id is the empty string
and header `1.2.3.4` it returns `user:` where the claim demands
`ip:1.2.3.4`; with no user, transport address `9.9.9.9`, and an empty
(but present) forwarding header it returns `ip:9.9.9.9` where the claim
demands the header-derived `ip:`. -/
theorem getClientId_cex :
    getClientId ⟨some (some ""), some "9.9.9.9", some "1.2.3.4"⟩ = "user:"
    ∧ ("user:" : String) ≠ "ip:1.2.3.4"
    ∧ getClientId ⟨none, some "9.9.9.9", some ""⟩ = "ip:9.9.9.9"
    ∧ ("ip:9.9.9.9" : String) ≠ "ip:" := by
  refine ⟨rfl, by decide, rfl, by decide⟩

/-- C6 (amended): client identification is total and returns exactly one
tagged key: when the authenticated user object is present the result is
`user:<id>` with the id defaulting to `"unknown"` when missing — even an
empty id yields `user:` — regardless of any addresses; otherwise a
present and non-empty forwarding header yields `ip:<first comma token,
trimmed>`; otherwise the result is `ip:<transport address>`, the
sentinel `ip:unknown` when no transport address is resolvable. -/
theorem getClientId_characterization (r : Request) :
    (∀ userId, r.user = some userId
      → getClientId r = "user:" ++ userId.getD "unknown")
    ∧ (r.user = none → ∀ h, r.forwardedFor = some h → h ≠ ""
        → getClientId r = "ip:" ++ firstForwardedToken h)
    ∧ (r.user = none → (r.forwardedFor = none ∨ r.forwardedFor = some "")
        → getClientId r = "ip:" ++ r.clientHost.getD "unknown")
    ∧ (r.user = none → r.forwardedFor = none → r.clientHost = none
        → getClientId r = "ip:unknown") := by
  obtain ⟨u, c, f⟩ := r
  refine ⟨?_, ?_, ?_, ?_⟩
  · rintro userId rfl
    rfl
  · rintro rfl h rfl hne
    simp only [getClientId]
    rw [if_neg (by simpa [String.isEmpty_iff] using hne)]
  · rintro rfl (rfl | rfl)
    · rfl
    · rfl
  · rintro rfl rfl rfl
    rfl

theorem getClientId_characterization_witness :
    getClientId ⟨some (some "u1"), some "9.9.9.9", some "1.2.3.4"⟩
      = "user:" ++ (some "u1").getD "unknown" :=
  (getClientId_characterization _).1 (some "u1") rfl

end RateLimiting

namespace UsageTracking

/-- A UTC wall-clock instant as handled by `datetime` in
`usage_tracking.py`.  The code compares instants through their ISO-8601
renderings (`created_at >= start_of_month.isoformat()` in the store
query, `max` of `created_at` strings in the summary); for zero-padded
ISO strings that string order is exactly the lexicographic order of the
fields modelled here. -/
structure DateTime where
  year : ℕ
  month : ℕ
  day : ℕ
  hour : ℕ
  minute : ℕ
  second : ℕ
  microsecond : ℕ
deriving DecidableEq, Repr

/-- Lexicographic `≤` on instants — the order realised by comparing
ISO-8601 timestamp strings. -/
def DateTime.leB (a b : DateTime) : Bool :=
  if a.year ≠ b.year then a.year < b.year
  else if a.month ≠ b.month then a.month < b.month
  else if a.day ≠ b.day then a.day < b.day
  else if a.hour ≠ b.hour then a.hour < b.hour
  else if a.minute ≠ b.minute then a.minute < b.minute
  else if a.second ≠ b.second then a.second < b.second
  else a.microsecond ≤ b.microsecond

/-- Python `max(a, b)` (returns `a` when the two compare equal). -/
def pyMax (a b : DateTime) : DateTime :=
  if DateTime.leB b a then a else b

/-- `datetime.utcnow().replace(day=1, hour=0, minute=0, second=0,
microsecond=0)`: the first instant of the current calendar month. -/
def startOfMonth (now : DateTime) : DateTime :=
  { now with day := 1, hour := 0, minute := 0, second := 0, microsecond := 0 }

/-- A row of the `usage_events` table as written by
`track_usage_event`. -/
structure UsageEvent where
  org_id : String
  event_type : String
  quantity : ℤ
  metadata : List (String × String)
  created_at : DateTime
deriving DecidableEq

/-- The `"trial"` entry of `USAGE_LIMITS`, with the `.get(limit_key, -1)`
default for unknown keys. -/
def trialLimits (key : String) : ℤ :=
  if key = "csv_uploads_per_month" then 5
  else if key = "csv_rows_per_month" then 1000
  else if key = "analyses_per_month" then 10
  else if key = "chat_messages_per_month" then 50
  else if key = "ai_tokens_per_month" then 100000
  else if key = "mapping_profiles" then 3
  else -1

/-- The `"pilot"` entry of `USAGE_LIMITS`. -/
def pilotLimits (key : String) : ℤ :=
  if key = "csv_uploads_per_month" then 50
  else if key = "csv_rows_per_month" then 50000
  else if key = "analyses_per_month" then 100
  else if key = "chat_messages_per_month" then 500
  else if key = "ai_tokens_per_month" then 1000000
  else if key = "mapping_profiles" then 20
  else -1

/-- The `"subscription"` entry of `USAGE_LIMITS` (all `-1`, unlimited). -/
def subscriptionLimits (key : String) : ℤ :=
  if key = "csv_uploads_per_month" then -1
  else if key = "csv_rows_per_month" then -1
  else if key = "analyses_per_month" then -1
  else if key = "chat_messages_per_month" then -1
  else if key = "ai_tokens_per_month" then -1
  else if key = "mapping_profiles" then -1
  else -1

/-- `USAGE_LIMITS.get(tier, USAGE_LIMITS["pilot"])`: tier table lookup
with fallback to pilot for unknown tier names. -/
def usageLimitsFor (tier : String) : String → ℤ :=
  if tier = "trial" then trialLimits
  else if tier = "pilot" then pilotLimits
  else if tier = "subscription" then subscriptionLimits
  else pilotLimits

/-- `limit_key_map.get(event_type)` in `check_usage_limit`. -/
def limitKeyMap (event_type : String) : Option String :=
  if event_type = "csv_upload" then some "csv_uploads_per_month"
  else if event_type = "csv_row_processed" then some "csv_rows_per_month"
  else if event_type = "analysis_run" then some "analyses_per_month"
  else if event_type = "chat_message" then some "chat_messages_per_month"
  else if event_type = "ai_tokens_input" then some "ai_tokens_per_month"
  else if event_type = "ai_tokens_output" then some "ai_tokens_per_month"
  else if event_type = "mapping_profile_created" then some "mapping_profiles"
  else none

/-- The store query of `check_usage_limit`: rows of `usage_events` with
matching `org_id` and `event_type` and `created_at >= start_of_month`
(`gte` on ISO strings). -/
def monthEvents (rows : List UsageEvent) (org_id event_type : String)
    (now : DateTime) : List UsageEvent :=
  rows.filter (fun e =>
    e.org_id == org_id && e.event_type == event_type
      && DateTime.leB (startOfMonth now) e.created_at)

/-- `current_usage = sum(event.get("quantity", 1) for event in
response.data)` over the month query (every row written by
`track_usage_event` carries its `quantity`). -/
def monthUsage (rows : List UsageEvent) (org_id event_type : String)
    (now : DateTime) : ℤ :=
  ((monthEvents rows org_id event_type now).map (fun e => e.quantity)).sum

/-- The `try` body of `check_usage_limit`: the storage round-trip is the
one failure point, passed in as `db` (`.error` = the query raised). -/
def check_usage_limit_attempt (db : Except String (List UsageEvent))
    (org_id event_type tier : String) (now : DateTime) :
    Except String (Bool × ℤ × ℤ) :=
  let limits := usageLimitsFor tier
  match limitKeyMap event_type with
  | none => Except.ok (true, 0, -1)
  | some limit_key =>
    let limit := limits limit_key
    if limit = -1 then Except.ok (true, 0, -1)
    else
      match db with
      | Except.error e => Except.error e
      | Except.ok rows =>
        let current_usage := monthUsage rows org_id event_type now
        Except.ok (decide (current_usage < limit), current_usage, limit)

/-- `check_usage_limit(org_id, event_type, tier)`: the `try` body with
the `except` fallback `(True, 0, -1)`. -/
def check_usage_limit (db : Except String (List UsageEvent))
    (org_id event_type tier : String) (now : DateTime) : Bool × ℤ × ℤ :=
  match check_usage_limit_attempt db org_id event_type tier now with
  | Except.ok r => r
  | Except.error _ => (true, 0, -1)

/-- `track_usage_event(org_id, event_type, quantity, metadata)` against
a store holding `db`: the insert either succeeds (`insert = .ok`),
appending one row timestamped `now`, or raises (`insert = .error`) and
the exception is caught and logged — the function always returns the
resulting store, never propagating the failure. -/
def track_usage_event (insert : Except String Unit) (db : List UsageEvent)
    (org_id event_type : String) (quantity : ℤ)
    (metadata : List (String × String)) (now : DateTime) : List UsageEvent :=
  match insert with
  | Except.ok _ => db ++ [⟨org_id, event_type, quantity, metadata, now⟩]
  | Except.error _ => db

/-- One per-type aggregate of `get_usage_summary`
(`{"count": .., "total_quantity": .., "first_event": .., "last_event": ..}`). -/
structure TypeSummary where
  count : ℕ
  total_quantity : ℤ
  first_event : DateTime
  last_event : DateTime
deriving DecidableEq, Repr

/-- The `summary` dict, insertion-ordered. -/
abbrev SummaryMap := List (String × TypeSummary)

/-- One iteration of the aggregation loop of `get_usage_summary`: a
first event of its type initialises the entry (both `first_event` and
`last_event` to its timestamp); later events of the type bump the
count, add the quantity, and take the `max` for `last_event` —
`first_event` is never updated. -/
def addEventToSummary (m : SummaryMap) (e : UsageEvent) : SummaryMap :=
  match m.find? (fun kv => kv.1 == e.event_type) with
  | none =>
    m ++ [(e.event_type, ⟨1, e.quantity, e.created_at, e.created_at⟩)]
  | some kv =>
    let s := kv.2
    let s2 : TypeSummary :=
      ⟨s.count + 1, s.total_quantity + e.quantity, s.first_event,
       pyMax s.last_event e.created_at⟩
    m.map (fun kv2 => if kv2.1 == e.event_type then (e.event_type, s2) else kv2)

/-- The aggregation loop of `get_usage_summary` over the fetched events
in storage-iteration order. -/
def buildSummary (events : List UsageEvent) : SummaryMap :=
  events.foldl addEventToSummary []

/-- The two shapes `get_usage_summary` can return: the full summary
dict, or — when the query raised — the error dict holding only the
organization id, the error message, and a generation timestamp. -/
inductive SummaryResult where
  | ok (org_id : String) (period_days : ℤ) (total_events : ℕ)
      (summary_by_type : SummaryMap) (generated_at : DateTime)
  | err (org_id : String) (error : String) (generated_at : DateTime)
deriving DecidableEq

/-- `get_usage_summary(org_id, days)`: `fetch` is the outcome of the
period query (`.error` = the query raised, caught by the `except`
branch). -/
def get_usage_summary (fetch : Except String (List UsageEvent))
    (org_id : String) (days : ℤ) (now : DateTime) : SummaryResult :=
  match fetch with
  | Except.ok data =>
    SummaryResult.ok org_id days data.length (buildSummary data) now
  | Except.error e => SummaryResult.err org_id e now

/-! ### Calendar-boundary lemmas -/

theorem startOfMonth_leB_same_month (now e : DateTime)
    (hy : e.year = now.year) (hm : e.month = now.month)
    (hd : 1 ≤ e.day) :
    DateTime.leB (startOfMonth now) e = true := by
  obtain ⟨ey, em, ed, eh, emi, es, eu⟩ := e
  obtain ⟨ny, nm, nd, nh, nmi, ns, nu⟩ := now
  dsimp only at hy hm hd
  unfold DateTime.leB startOfMonth
  dsimp only
  split_ifs <;>
    simp only [decide_eq_true_eq] <;>
    omega

theorem startOfMonth_leB_prior_month (now e : DateTime)
    (h : e.year < now.year ∨ (e.year = now.year ∧ e.month < now.month)) :
    DateTime.leB (startOfMonth now) e = false := by
  obtain ⟨ey, em, ed, eh, emi, es, eu⟩ := e
  obtain ⟨ny, nm, nd, nh, nmi, ns, nu⟩ := now
  dsimp only at h
  unfold DateTime.leB startOfMonth
  dsimp only
  split_ifs <;>
    simp only [decide_eq_false_iff_not, decide_eq_true_eq] <;>
    omega

/-! ### Claim theorems -/

/-- C3: with a mapped event type and a finite resolved ceiling `L`,
`check_usage_limit` sums the quantities of the organization's events of
that type timestamped at or after the first instant of the current
calendar month (an event in the current month — even exactly at the
month start — is counted; an event from a prior month is not) and
returns `withinLimit = current < L`: with exactly `L - 1` units used it
returns `(true, L - 1, L)`, with exactly `L` it returns
`(false, L, L)`. -/
theorem check_usage_limit_month_quota
    (rows : List UsageEvent) (org_id event_type tier : String)
    (now : DateTime) (limit_key : String) (L : ℤ)
    (hk : limitKeyMap event_type = some limit_key)
    (hL : usageLimitsFor tier limit_key = L)
    (hfin : L ≠ -1) :
    check_usage_limit (Except.ok rows) org_id event_type tier now
      = (decide (monthUsage rows org_id event_type now < L),
         monthUsage rows org_id event_type now, L)
    ∧ (monthUsage rows org_id event_type now = L - 1 →
        check_usage_limit (Except.ok rows) org_id event_type tier now
          = (true, L - 1, L))
    ∧ (monthUsage rows org_id event_type now = L →
        check_usage_limit (Except.ok rows) org_id event_type tier now
          = (false, L, L))
    ∧ (∀ e ∈ rows, e.org_id = org_id → e.event_type = event_type →
        (e.created_at.year = now.year → e.created_at.month = now.month →
          1 ≤ e.created_at.day →
          e ∈ monthEvents rows org_id event_type now)
        ∧ ((e.created_at.year < now.year
              ∨ (e.created_at.year = now.year
                  ∧ e.created_at.month < now.month)) →
            e ∉ monthEvents rows org_id event_type now)) := by
  have hmain : check_usage_limit (Except.ok rows) org_id event_type tier now
      = (decide (monthUsage rows org_id event_type now < L),
         monthUsage rows org_id event_type now, L) := by
    unfold check_usage_limit check_usage_limit_attempt
    simp only [hk, hL, if_neg hfin]
  refine ⟨hmain, ?_, ?_, ?_⟩
  · intro hcur
    rw [hmain, hcur]
    simp only [Prod.mk.injEq, decide_eq_true_eq, and_true]
    omega
  · intro hcur
    rw [hmain, hcur]
    simp only [Prod.mk.injEq, decide_eq_false_iff_not, and_true]
    omega
  · intro e he horg hty
    constructor
    · intro hy hm hd
      unfold monthEvents
      rw [List.mem_filter]
      refine ⟨he, ?_⟩
      simp [horg, hty, startOfMonth_leB_same_month now e.created_at hy hm hd]
    · intro hprior hmem
      unfold monthEvents at hmem
      rw [List.mem_filter] at hmem
      have hb := hmem.2
      rw [startOfMonth_leB_prior_month now e.created_at hprior] at hb
      simp at hb

theorem check_usage_limit_month_quota_witness :
    check_usage_limit (Except.ok []) "org1" "chat_message" "trial"
        ⟨2025, 2, 10, 12, 0, 0, 0⟩
      = (decide (monthUsage [] "org1" "chat_message"
            ⟨2025, 2, 10, 12, 0, 0, 0⟩ < 50),
         monthUsage [] "org1" "chat_message" ⟨2025, 2, 10, 12, 0, 0, 0⟩,
         50) :=
  (check_usage_limit_month_quota [] "org1" "chat_message" "trial"
    ⟨2025, 2, 10, 12, 0, 0, 0⟩ "chat_messages_per_month" 50
    rfl rfl (by decide)).1

/-- C4: infrastructure failures are fail-open and fail-silent — a
storage failure during `check_usage_limit` yields the allow decision
`(true, 0, -1)` rather than propagating, and `track_usage_event`
returns its store unchanged (normally, with no propagated error) when
the insert raises, and appends the one new row when it succeeds. -/
theorem usage_failures_fail_open
    : (∀ msg org_id event_type tier now,
        check_usage_limit (Except.error msg) org_id event_type tier now
          = (true, 0, -1))
    ∧ (∀ msg db org_id event_type quantity metadata now,
        track_usage_event (Except.error msg) db org_id event_type quantity
          metadata now = db)
    ∧ (∀ db org_id event_type quantity metadata now,
        track_usage_event (Except.ok ()) db org_id event_type quantity
          metadata now
          = db ++ [⟨org_id, event_type, quantity, metadata, now⟩]) := by
  refine ⟨?_, ?_, ?_⟩
  · intro msg org_id event_type tier now
    unfold check_usage_limit check_usage_limit_attempt
    cases h : limitKeyMap event_type with
    | none => rfl
    | some limit_key =>
      by_cases hl : usageLimitsFor tier limit_key = -1
      · simp [hl]
      · simp [hl]
  · intro msg db org_id event_type quantity metadata now
    rfl
  · intro db org_id event_type quantity metadata now
    rfl

/-- C5: `check_usage_limit` resolves its ceiling uniformly — an unknown
tier name uses pilot's table (never trial's), an unmapped event type
yields `(true, 0, -1)` regardless of recorded volume or store state,
and a resolved ceiling of `-1` yields `(true, 0, -1)` for every
possible store outcome (the store is never consulted). -/
theorem check_usage_limit_resolution
    : (∀ tier, tier ≠ "trial" → tier ≠ "pilot" → tier ≠ "subscription" →
        usageLimitsFor tier = pilotLimits
        ∧ usageLimitsFor tier "csv_uploads_per_month" = 50
        ∧ trialLimits "csv_uploads_per_month" = 5)
    ∧ (∀ db org_id event_type tier now, limitKeyMap event_type = none →
        check_usage_limit db org_id event_type tier now = (true, 0, -1))
    ∧ (∀ org_id event_type tier now limit_key,
        limitKeyMap event_type = some limit_key →
        usageLimitsFor tier limit_key = -1 →
        ∀ db, check_usage_limit db org_id event_type tier now
          = (true, 0, -1)) := by
  refine ⟨?_, ?_, ?_⟩
  · intro tier h1 h2 h3
    unfold usageLimitsFor
    rw [if_neg h1, if_neg h2, if_neg h3]
    exact ⟨rfl, rfl, rfl⟩
  · intro db org_id event_type tier now h
    unfold check_usage_limit check_usage_limit_attempt
    simp only [h]
  · intro org_id event_type tier now limit_key hk hl db
    unfold check_usage_limit check_usage_limit_attempt
    simp only [hk, hl, if_pos]

theorem check_usage_limit_resolution_witness :
    usageLimitsFor "enterprise" = pilotLimits
    ∧ check_usage_limit (Except.error "db down") "org1" "export_pdf"
        "enterprise" ⟨2025, 2, 10, 0, 0, 0, 0⟩ = (true, 0, -1)
    ∧ check_usage_limit
        (Except.ok [⟨"org1", "csv_upload", 1000000, [],
          ⟨2025, 2, 1, 0, 0, 0, 0⟩⟩])
        "org1" "csv_upload" "subscription" ⟨2025, 2, 10, 0, 0, 0, 0⟩
        = (true, 0, -1) :=
  ⟨(check_usage_limit_resolution.1 "enterprise" (by decide) (by decide)
      (by decide)).1,
   check_usage_limit_resolution.2.1 _ "org1" "export_pdf" "enterprise"
     ⟨2025, 2, 10, 0, 0, 0, 0⟩ rfl,
   check_usage_limit_resolution.2.2 "org1" "csv_upload" "subscription"
     ⟨2025, 2, 10, 0, 0, 0, 0⟩ "csv_uploads_per_month" rfl rfl _⟩

/-- C9: the summary's `first_event` is the timestamp of the first event
of its type in storage-iteration order, not the group minimum: two
`csv_upload` events returned in the order 2025-02-02, 2025-02-01
produce `first_event = 2025-02-02` although the group's earliest
timestamp is 2025-02-01 (`last_event`, by contrast, is the max). -/
theorem get_usage_summary_first_event_bug :
    get_usage_summary
      (Except.ok [⟨"org1", "csv_upload", 1, [], ⟨2025, 2, 2, 0, 0, 0, 0⟩⟩,
                  ⟨"org1", "csv_upload", 1, [], ⟨2025, 2, 1, 0, 0, 0, 0⟩⟩])
      "org1" 30 ⟨2025, 2, 10, 0, 0, 0, 0⟩
      = SummaryResult.ok "org1" 30 2
          [("csv_upload",
            ⟨2, 2, ⟨2025, 2, 2, 0, 0, 0, 0⟩, ⟨2025, 2, 2, 0, 0, 0, 0⟩⟩)]
          ⟨2025, 2, 10, 0, 0, 0, 0⟩
    ∧ DateTime.leB ⟨2025, 2, 1, 0, 0, 0, 0⟩ ⟨2025, 2, 2, 0, 0, 0, 0⟩ = true
    ∧ (⟨2025, 2, 1, 0, 0, 0, 0⟩ : DateTime) ≠ ⟨2025, 2, 2, 0, 0, 0, 0⟩ := by
  decide

/-- C10: on a storage failure `get_usage_summary` returns normally with
the error-shaped result — organization id, error message, generation
timestamp — which is never the aggregate-carrying shape (no
`total_events`, no `summary_by_type`). -/
theorem get_usage_summary_error_shape (msg org_id : String) (days : ℤ)
    (now : DateTime) :
    get_usage_summary (Except.error msg) org_id days now
      = SummaryResult.err org_id msg now
    ∧ ∀ o d te sm g,
        get_usage_summary (Except.error msg) org_id days now
          ≠ SummaryResult.ok o d te sm g := by
  refine ⟨rfl, ?_⟩
  intro o d te sm g h
  simp only [get_usage_summary] at h
  exact SummaryResult.noConfusion h

theorem get_usage_summary_error_shape_witness :
    get_usage_summary (Except.error "boom") "org1" 30
        ⟨2025, 2, 10, 0, 0, 0, 0⟩
      = SummaryResult.err "org1" "boom" ⟨2025, 2, 10, 0, 0, 0, 0⟩ :=
  (get_usage_summary_error_shape "boom" "org1" 30
    ⟨2025, 2, 10, 0, 0, 0, 0⟩).1

end UsageTracking
